import Mathlib

/-!
Verification of `src/services/strands/recommendation_agent.py`.

Shallow embedding conventions:
- Python JSON-like values are modelled by `PyVal`; dicts are association
  lists in insertion order (CPython dicts preserve insertion order).
- Python floats are modelled as exact rationals (`ℚ`); `0.95` is `19/20`.
- Fallible Python code (exceptions) is modelled with `Except String`.
- The hosted Strands agent and `json.loads` are external collaborators:
  `lambda_handler` is parameterised by an `agent : String → String`
  (prompt ↦ reply text) and `jsonLoads : String → Except String PyVal`
  (`.error` models `json.loads` raising `JSONDecodeError`).
- Response bodies are kept structurally (the `PyVal` that the code passes
  to `json.dumps`) rather than as serialised strings.
-/

namespace RecommendationAgent

/-- Model of a Python JSON-like value. -/
inductive PyVal where
  | str (s : String)
  | num (q : ℚ)
  | bool (b : Bool)
  | none
  | list (xs : List PyVal)
  | dict (kvs : List (String × PyVal))

/-- A Python dict with string keys, in insertion order. -/
abbrev PyDict := List (String × PyVal)

/-- `d.get(k)` / `d.get(k, default)` on an association-list dict. -/
def dictGet (d : PyDict) (k : String) : Option PyVal :=
  (d.find? (fun kv => kv.1 == k)).map (·.2)

mutual

/-- Rendering of a `PyVal` to text, standing in for Python `str()` /
`json.dumps` inside f-string interpolation.  The exact rendering of nested
values is not load-bearing for any claim; only that it is a pure function
of the value. -/
def pyStr : PyVal → String
  | .str s => s
  | .num q => toString q
  | .bool b => if b then "True" else "False"
  | .none => "None"
  | .list xs => "[" ++ pyStrList xs ++ "]"
  | .dict kvs => "\x7b" ++ pyStrPairs kvs ++ "\x7d"

def pyStrList : List PyVal → String
  | [] => ""
  | [x] => pyStr x
  | x :: y :: xs => pyStr x ++ ", " ++ pyStrList (y :: xs)

def pyStrPairs : List (String × PyVal) → String
  | [] => ""
  | [kv] => kv.1 ++ ": " ++ pyStr kv.2
  | kv :: kv2 :: kvs => kv.1 ++ ": " ++ pyStr kv.2 ++ ", " ++ pyStrPairs (kv2 :: kvs)

end

/-- Python f-string interpolation of an optional value (`None` renders as
`"None"`). -/
def pyStrOpt (v : Option PyVal) : String :=
  match v with
  | Option.none => "None"
  | some v => pyStr v

/-- Python truthiness of an optional string (`None` and `""` are falsy). -/
def truthyStr (s : Option String) : Bool :=
  match s with
  | Option.none => false
  | some s => s ≠ ""

/-- `str.lower()` on the basic-latin range (the only characters appearing
in the best-practices table keys). -/
def pyLower (s : String) : String := ⟨s.data.map Char.toLower⟩

/-- `list.find('c')`: index of the first occurrence, or `-1`. -/
def listFind (c : Char) : List Char → Int
  | [] => -1
  | x :: xs => if x = c then 0 else (if listFind c xs < 0 then -1 else listFind c xs + 1)

/-- `s.find('c')` (first index or `-1`). -/
def strFind (s : String) (c : Char) : Int := listFind c s.data

/-- `list.rfind('c')`: index of the last occurrence, or `-1`. -/
def listRFind (c : Char) : List Char → Int
  | [] => -1
  | x :: xs =>
      if listRFind c xs ≥ 0 then listRFind c xs + 1
      else if x = c then 0 else -1

/-- `s.rfind('c')` (last index or `-1`). -/
def strRFind (s : String) (c : Char) : Int := listRFind c s.data

/-- Python slice `s[a:b]`, for the in-range indices the handler produces
(`0 ≤ a`, `a ≤ b`; clamped at the end of the string like Python). -/
def pySlice (s : String) (a b : Int) : String :=
  ⟨(s.data.drop a.toNat).take (b.toNat - a.toNat)⟩

/-! ## `analyze_historical_patterns` -/

/-- A historical alert record, as consumed by `analyze_historical_patterns`
(only the fields the function reads; absent fields are `none`/`[]`). -/
structure HAlert where
  eventType : Option String := Option.none
  severity : Option ℚ := Option.none
  effectiveActions : List String := []
deriving DecidableEq, Repr

/-- One entry of the `effective_actions` output list. -/
structure EffectiveAction where
  action : String
  eventType : String
  frequency : Nat
  confidence : ℚ
deriving DecidableEq, Repr

/-- One entry of the `patterns` output list. -/
structure PatternSummary where
  eventType : String
  count : Nat
  averageSeverity : ℚ
  description : String
deriving DecidableEq, Repr

/-- The dictionary returned by `analyze_historical_patterns`. -/
structure PatternsResult where
  patterns : List PatternSummary
  effective_actions : List EffectiveAction
deriving DecidableEq, Repr

/-- `alert_types[k].append(a)`, creating the key at the end when absent
(CPython dicts keep insertion order). -/
def addToGroup (acc : List (String × List HAlert)) (k : String) (a : HAlert) :
    List (String × List HAlert) :=
  match acc with
  | [] => [(k, [a])]
  | (k', l) :: rest =>
      if k' = k then (k', l ++ [a]) :: rest else (k', l) :: addToGroup rest k a

/-- The `alert_types` grouping loop: partition alerts by
`alert.get("eventType", "unknown")`, keys in first-encounter order. -/
def groupByEventType (alerts : List HAlert) : List (String × List HAlert) :=
  alerts.foldl (fun acc a => addToGroup acc (a.eventType.getD "unknown") a) []

/-- `actions_count[action] += 1` (insert with count 1 at the end when the
action is new). -/
def addCount (acc : List (String × Nat)) (k : String) : List (String × Nat) :=
  match acc with
  | [] => [(k, 1)]
  | (k', n) :: rest =>
      if k' = k then (k', n + 1) :: rest else (k', n) :: addCount rest k

/-- The `actions_count` tally loop over one partition: occurrence counts of
each string in `effectiveActions`, keys in first-encounter order. -/
def actionsCount (l : List HAlert) : List (String × Nat) :=
  l.foldl (fun acc a => a.effectiveActions.foldl addCount acc) []

/-- Stable insertion of a tally pair into a descending-by-count list: the
new element goes before the first element with a count `≤` its own (it came
earlier in the unsorted list, so among equal counts it stays first). -/
def sortedInsert (x : String × Nat) : List (String × Nat) → List (String × Nat)
  | [] => [x]
  | y :: ys => if y.2 ≤ x.2 then x :: y :: ys else y :: sortedInsert x ys

/-- `sorted(actions_count.items(), key=lambda x: x[1], reverse=True)`:
Python's `sorted` is a stable sort; a stable sort by a fixed key is unique,
so this stable insertion sort computes the same list. -/
def sortByCountDesc : List (String × Nat) → List (String × Nat)
  | [] => []
  | x :: xs => sortedInsert x (sortByCountDesc xs)

/-- The `for action, count in top_actions[:3]` loop for one partition. -/
def effectiveActionsFor (et : String) (l : List HAlert) : List EffectiveAction :=
  ((sortByCountDesc (actionsCount l)).take 3).map fun p =>
    { action := p.1
      eventType := et
      frequency := p.2
      confidence := min ((p.2 : ℚ) / (l.length : ℚ)) (19/20) }

/-- The `if len(type_alerts) >= 3` pattern-summary step for one partition. -/
def patternsFor (et : String) (l : List HAlert) : List PatternSummary :=
  if 3 ≤ l.length then
    [{ eventType := et
       count := l.length
       averageSeverity := ((l.map fun a => a.severity.getD 0).sum) / (l.length : ℚ)
       description := "Pattern of " ++ et ++ " alerts identified with " ++
         toString l.length ++ " occurrences" }]
  else []

/-- `analyze_historical_patterns`.  The argument is `Option` so that the
Python guard `if not alerts or len(alerts) == 0` (which also accepts
`None`) is modelled faithfully. -/
def analyze_historical_patterns (alerts : Option (List HAlert)) : PatternsResult :=
  let falsy := match alerts with
    | Option.none => true
    | some l => l.isEmpty
  if falsy then { patterns := [], effective_actions := [] }
  else
    let groups := groupByEventType (alerts.getD [])
    { patterns := groups.flatMap fun g => patternsFor g.1 g.2
      effective_actions := groups.flatMap fun g => effectiveActionsFor g.1 g.2 }

/-! ## `get_best_practices` -/

/-- A value of the `best_practices` dict: every event-type key maps to a
sub-type dict, except the top-level `"default"` key which maps directly to
a list of strings. -/
inductive BPEntry where
  | table (entries : List (String × List String))
  | leaf (practices : List String)

/-- Generic association-list lookup (`k in d` / `d[k]`). -/
def alistGet {α : Type} (d : List (String × α)) (k : String) : Option α :=
  (d.find? (fun kv => kv.1 == k)).map (·.2)

/-- The global default list (`best_practices["default"]`). -/
def globalDefault : List String :=
  [ "Stay informed through official channels"
  , "Follow instructions from authorities"
  , "Have emergency supplies ready"
  , "Develop and practice an emergency plan"
  , "Help neighbors who may need assistance" ]

/-- The hardcoded `best_practices` table. -/
def best_practices : List (String × BPEntry) :=
  [ ("weather", .table
      [ ("hurricane",
          [ "Evacuate if directed by local authorities"
          , "Secure outdoor objects that could become projectiles"
          , "Prepare emergency supplies including food, water, and medications"
          , "Stay away from windows during the storm"
          , "Monitor NOAA Weather Radio for updates" ])
      , ("tornado",
          [ "Move to an interior room on the lowest floor"
          , "Stay away from windows"
          , "Cover your head and neck"
          , "Monitor local weather alerts"
          , "Have emergency supplies ready" ])
      , ("flood",
          [ "Move to higher ground immediately"
          , "Do not walk, swim, or drive through flood waters"
          , "Stay off bridges over fast-moving water"
          , "Evacuate if told to do so"
          , "Prepare emergency supplies" ])
      , ("default",
          [ "Stay informed through official weather channels"
          , "Prepare emergency supplies"
          , "Follow evacuation orders if issued"
          , "Secure your property if time allows"
          , "Have a communication plan with family members" ]) ])
  , ("earthquake", .table
      [ ("default",
          [ "Drop, cover, and hold on"
          , "If indoors, stay away from windows and exterior walls"
          , "If outdoors, move to an open area away from buildings and power lines"
          , "Be prepared for aftershocks"
          , "Check for injuries and damage after shaking stops"
          , "Listen to emergency radio for instructions" ]) ])
  , ("health", .table
      [ ("epidemic",
          [ "Follow public health guidelines"
          , "Practice good hygiene including frequent handwashing"
          , "Maintain social distancing as recommended"
          , "Wear appropriate protective equipment if advised"
          , "Stay home if you develop symptoms"
          , "Seek medical attention if symptoms worsen" ])
      , ("default",
          [ "Follow guidance from health authorities"
          , "Maintain proper hygiene practices"
          , "Stay informed through official health channels"
          , "Prepare necessary medications and supplies"
          , "Have emergency contacts readily available" ]) ])
  , ("security", .table
      [ ("default",
          [ "Follow instructions from authorities"
          , "Avoid the affected area"
          , "Report suspicious activity to authorities"
          , "Stay informed through official channels"
          , "Have an emergency plan and supplies ready" ]) ])
  , ("default", .leaf globalDefault) ]

/-- The `elif "default" in type_practices: return type_practices["default"]`
fall-through of `get_best_practices`, ending at
`return best_practices["default"]`. -/
def defaultOf (type_practices : List (String × List String)) :
    Except String (List String) :=
  match alistGet type_practices "default" with
  | some l => .ok l
  | Option.none => .ok globalDefault

/-- The body of `get_best_practices` when `type_practices` is a sub-type
dict: `if sub_type and sub_type.lower() in type_practices: return
type_practices[sub_type.lower()]`, else the default fall-through. -/
def tableBranch (type_practices : List (String × List String))
    (sub_type : Option String) : Except String (List String) :=
  match sub_type with
  | some s =>
      if s ≠ "" then
        match alistGet type_practices (pyLower s) with
        | some l => .ok l
        | Option.none => defaultOf type_practices
      else defaultOf type_practices
  | Option.none => defaultOf type_practices

/-- The body of `get_best_practices` when `type_practices` is the
top-level `"default"` *list*: Python's `in` then tests membership of the
lowered sub-type (resp. of the string `"default"`) among the practice
strings, and indexing the list with a string key would raise `TypeError`
(modelled as `.error`). -/
def leafBranch (type_practices : List String) (sub_type : Option String) :
    Except String (List String) :=
  match sub_type with
  | some s =>
      if s ≠ "" ∧ pyLower s ∈ type_practices then
        .error "TypeError: list indices must be integers or slices, not str"
      else if "default" ∈ type_practices then
        .error "TypeError: list indices must be integers or slices, not str"
      else .ok globalDefault
  | Option.none =>
      if "default" ∈ type_practices then
        .error "TypeError: list indices must be integers or slices, not str"
      else .ok globalDefault

/-- `get_best_practices(event_type, sub_type)`. -/
def get_best_practices (event_type : String) (sub_type : Option String) :
    Except String (List String) :=
  match alistGet best_practices (pyLower event_type) with
  | some (.table type_practices) => tableBranch type_practices sub_type
  | some (.leaf type_practices) => leafBranch type_practices sub_type
  | Option.none => .ok globalDefault

/-- Modelled from the spec: §4.2's resolution order over the table of
sub-type lists — exact (case-insensitive) `(eventType, subType)` match
first, else the `(eventType, "default")` entry, else the global default
list. -/
def specResolve (entries : List (String × List String)) (sub_type : Option String) :
    List String :=
  match (match sub_type with
         | some s => alistGet entries (pyLower s)
         | Option.none => Option.none) with
  | some l => l
  | Option.none =>
      match alistGet entries "default" with
      | some l => l
      | Option.none => globalDefault

/-- Modelled from the spec: the full resolution, case-insensitive on the
event type; event types not carrying a sub-type table resolve to the
global default list. -/
def bp_resolution_spec (event_type : String) (sub_type : Option String) :
    List String :=
  match alistGet best_practices (pyLower event_type) with
  | some (.table entries) => specResolve entries sub_type
  | _ => globalDefault

/-! ## `lambda_handler` -/

/-- The `context` member of the Lambda event (`event.get("context", {})`
defaults both members when absent). -/
structure EventContext where
  currentAlert : Option PyDict := Option.none
  historicalAlerts : Option PyVal := Option.none

/-- The Lambda event (only the keys the handler reads). -/
structure Event where
  action : Option PyVal := Option.none
  context : Option EventContext := Option.none

/-- A Lambda response; `body` is kept structurally as the value the code
passes to `json.dumps`. -/
structure Response where
  statusCode : Nat
  body : PyVal

/-- Python `action != "generateRecommendations"` (comparison with a
non-string or missing value is `True`, i.e. unequal). -/
def isGenerateRecommendations (action : Option PyVal) : Bool :=
  match action with
  | some (.str s) => s == "generateRecommendations"
  | _ => false

/-- The prompt f-string built from `current_alert` (indentation whitespace
of the Python source elided; literal braces of the requested JSON shape
written as escapes). -/
def buildPrompt (current_alert : PyDict) : String :=
  "Generate recommendations for the following alert:\n\n" ++
  "ALERT DETAILS:\n" ++
  "Type: " ++ pyStrOpt (dictGet current_alert "eventType") ++ "\n" ++
  "Sub-type: " ++ pyStr ((dictGet current_alert "subType").getD (.str "N/A")) ++ "\n" ++
  "Severity: " ++ pyStr ((dictGet current_alert "severity").getD (.str "Unknown")) ++ "\n" ++
  "Headline: " ++ pyStr ((dictGet current_alert "headline").getD (.str "N/A")) ++ "\n" ++
  "Description: " ++ pyStr ((dictGet current_alert "description").getD (.str "N/A")) ++ "\n" ++
  "Location: " ++ pyStr ((dictGet current_alert "location").getD (.dict [])) ++ "\n" ++
  "Affected Areas: " ++ pyStr ((dictGet current_alert "affectedAreas").getD (.list [])) ++ "\n\n" ++
  "Based on the alert details, historical data, and best practices:\n" ++
  "1. Analyze historical patterns from similar alerts\n" ++
  "2. Identify best practices for this type of event\n" ++
  "3. Generate specific recommendations for this situation\n\n" ++
  "Format your response as a JSON object with the following structure:\n" ++
  "\x7b\n    \"recommendations\": \x7b\n" ++
  "        \"general\": [\"List of general recommendations\"],\n" ++
  "        \"specific\": [\"List of specific actions tailored to this alert\"]\n" ++
  "    \x7d,\n" ++
  "    \"priorityLevel\": \"high|medium|low\",\n" ++
  "    \"timeframe\": \"immediate|short-term|long-term\",\n" ++
  "    \"confidenceScore\": 0.0-1.0,\n" ++
  "    \"sources\": [\"List of sources or justifications\"]\n\x7d"

/-- The prompt the handler sends for a given event (step 4 of the
handler): it is built from `currentAlert` alone. -/
def handlerPrompt (e : Event) : String :=
  buildPrompt (((e.context.getD {}).currentAlert).getD [])

/-- The hardcoded fallback `recommendations` object of the handler. -/
def fallbackRecommendations : PyVal :=
  .dict
    [ ("recommendations", .dict
        [ ("general", .list
            [ .str "Stay informed through official channels"
            , .str "Follow instructions from authorities" ])
        , ("specific", .list []) ])
    , ("priorityLevel", .str "medium")
    , ("timeframe", .str "immediate")
    , ("confidenceScore", .num (1/2))
    , ("sources", .list [.str "System generated recommendations"]) ]

/-- `lambda_handler(event, context)`, parameterised by the external
collaborators: `agent` maps the prompt to the reply text
(`response.message`), and `jsonLoads` models `json.loads`, with `.error`
for a raised `JSONDecodeError`; a raised exception inside the `try` block
is caught and becomes the 500 response. -/
def lambda_handler (event : Event) (agent : String → String)
    (jsonLoads : String → Except String PyVal) : Response :=
  let action := event.action
  if ¬ isGenerateRecommendations action then
    { statusCode := 400
      body := .dict [("error", .str ("Unsupported action: " ++ pyStrOpt action))] }
  else
    let context_data := event.context.getD {}
    let current_alert := context_data.currentAlert.getD []
    -- `historical_alerts` is extracted here in the source and never used.
    let _historical_alerts := context_data.historicalAlerts.getD (.list [])
    if current_alert.isEmpty then
      { statusCode := 400
        body := .dict [("error", .str "Current alert data is required")] }
    else
      let prompt := buildPrompt current_alert
      let message_text := agent prompt
      let json_start := strFind message_text '\x7b'
      let json_end := strRFind message_text '\x7d' + 1
      if json_start ≥ 0 ∧ json_end > json_start then
        match jsonLoads (pySlice message_text json_start json_end) with
        | .ok recommendations => { statusCode := 200, body := recommendations }
        | .error e =>
            { statusCode := 500
              body := .dict [("error",
                .str ("Failed to generate recommendations: " ++ e))] }
      else
        { statusCode := 200, body := fallbackRecommendations }

/-! ## Concrete instances used in witnesses and counterexamples -/

/-- A well-formed event (correct action, non-empty `currentAlert`). -/
def ev0 : Event :=
  { action := some (.str "generateRecommendations")
    context := some
      { currentAlert := some [("eventType", .str "weather")]
        historicalAlerts := Option.none } }

/-- A stubbed agent whose reply contains a brace-delimited span that is not
parseable JSON. -/
def agent0 : String → String := fun _ => "\x7bnot json\x7d"

/-- A stubbed agent whose reply contains no braces at all. -/
def agentNoBraces : String → String := fun _ => "no structured output"

/-- A model of `json.loads` on inputs it rejects: `json.loads("\x7bnot json\x7d")`
raises `JSONDecodeError` with this message. -/
def jsonLoads0 : String → Except String PyVal :=
  fun _ => .error "Expecting value: line 1 column 2 (char 1)"

/-- Three historical weather alerts used as a concrete aggregator input. -/
def halerts3 : List HAlert :=
  [ { eventType := some "weather", severity := some 8
      effectiveActions := ["evacuate", "shelter"] }
  , { eventType := some "weather", severity := some 6
      effectiveActions := ["evacuate"] }
  , { eventType := some "weather", severity := some 4
      effectiveActions := [] } ]

/-- The aggregator entry for "evacuate" over `halerts3` (tallied twice over
a partition of three records). -/
def effEvac : EffectiveAction :=
  { action := "evacuate", eventType := "weather", frequency := 2, confidence := 2/3 }

/-! ## Theorems -/

/-- C8: for the empty input sequence, and for a missing/`None` input,
`analyze_historical_patterns` returns exactly
`{patterns: [], effective_actions: []}`. -/
theorem c8_empty_input :
    analyze_historical_patterns Option.none =
      { patterns := [], effective_actions := [] } ∧
    analyze_historical_patterns (some []) =
      { patterns := [], effective_actions := [] } :=
  ⟨rfl, rfl⟩

/-- C2: two well-formed events that differ only in
`context.historicalAlerts` produce character-for-character identical
prompts, and (for a fixed agent and JSON parser) identical handler
responses: `historicalAlerts` is extracted but never used. -/
theorem c2_historical_alerts_unused (action : Option PyVal)
    (ca : Option PyDict) (h₁ h₂ : Option PyVal)
    (agent : String → String) (jsonLoads : String → Except String PyVal) :
    handlerPrompt { action := action, context := some { currentAlert := ca, historicalAlerts := h₁ } } =
      handlerPrompt { action := action, context := some { currentAlert := ca, historicalAlerts := h₂ } } ∧
    lambda_handler { action := action, context := some { currentAlert := ca, historicalAlerts := h₁ } }
        agent jsonLoads =
      lambda_handler { action := action, context := some { currentAlert := ca, historicalAlerts := h₂ } }
        agent jsonLoads :=
  ⟨rfl, rfl⟩

/-- C9: an event whose `context` carries `currentAlert` present but equal
to the empty object is rejected with statusCode 400 exactly as when
`currentAlert` is absent: the validation tests truthiness of the extracted
value, not presence of the key. -/
theorem c9_empty_current_alert (hist : Option PyVal)
    (agent : String → String) (jsonLoads : String → Except String PyVal) :
    lambda_handler
        { action := some (.str "generateRecommendations")
          context := some { currentAlert := some [], historicalAlerts := hist } }
        agent jsonLoads =
      { statusCode := 400
        body := .dict [("error", .str "Current alert data is required")] } ∧
    lambda_handler
        { action := some (.str "generateRecommendations")
          context := some { currentAlert := some [], historicalAlerts := hist } }
        agent jsonLoads =
      lambda_handler
        { action := some (.str "generateRecommendations")
          context := some { currentAlert := Option.none, historicalAlerts := hist } }
        agent jsonLoads :=
  ⟨rfl, rfl⟩

/-- C7: an event whose action is not `"generateRecommendations"` gets
statusCode 400 with an error message naming the unsupported action, and an
event with the correct action but falsy `currentAlert` gets statusCode 400,
in both cases with a response that does not depend on the agent (the agent
is never invoked). -/
theorem c7_validation (a : Option PyVal) (ctx : Option EventContext)
    (agent : String → String) (jsonLoads : String → Except String PyVal) :
    (isGenerateRecommendations a = false →
      lambda_handler { action := a, context := ctx } agent jsonLoads =
        { statusCode := 400
          body := .dict [("error", .str ("Unsupported action: " ++ pyStrOpt a))] }) ∧
    (isGenerateRecommendations a = true →
      ((ctx.getD {}).currentAlert.getD []).isEmpty = true →
      lambda_handler { action := a, context := ctx } agent jsonLoads =
        { statusCode := 400
          body := .dict [("error", .str "Current alert data is required")] }) := by
  constructor
  · intro h
    simp [lambda_handler, h]
  · intro h h2
    simp [lambda_handler, h, h2]

/-- C7 witness: the event `{action: "foo"}` yields statusCode 400 naming
`foo`, and `{action: "generateRecommendations", context: {}}` yields
statusCode 400 for the missing alert. -/
theorem c7_validation_witness :
    isGenerateRecommendations (some (.str "foo")) = false ∧
    lambda_handler { action := some (.str "foo"), context := Option.none } agent0 jsonLoads0 =
      { statusCode := 400
        body := .dict [("error", .str "Unsupported action: foo")] } ∧
    isGenerateRecommendations (some (.str "generateRecommendations")) = true ∧
    lambda_handler
        { action := some (.str "generateRecommendations"), context := some {} }
        agent0 jsonLoads0 =
      { statusCode := 400
        body := .dict [("error", .str "Current alert data is required")] } :=
  ⟨rfl, (c7_validation (some (.str "foo")) Option.none agent0 jsonLoads0).1 rfl,
   rfl, (c7_validation (some (.str "generateRecommendations")) (some {}) agent0 jsonLoads0).2 rfl rfl⟩

/-- C1 counterexample: for a well-formed event, an agent reply that
contains a first brace and a last brace but whose enclosed substring is not
parseable JSON (`json.loads` raises) makes `lambda_handler` return
statusCode 500, not 200 with the fallback — contradicting the claim that a
response-shape failure is never surfaced as a non-200 status. -/
theorem c1_counterexample :
    agent0 (handlerPrompt ev0) = "\x7bnot json\x7d" ∧
    strFind "\x7bnot json\x7d" '\x7b' = 0 ∧
    strRFind "\x7bnot json\x7d" '\x7d' = 9 ∧
    (∃ e, jsonLoads0 "\x7bnot json\x7d" = .error e) ∧
    (lambda_handler ev0 agent0 jsonLoads0).statusCode = 500 ∧
    (lambda_handler ev0 agent0 jsonLoads0).statusCode ≠ 200 :=
  ⟨rfl, by decide, by decide, ⟨_, rfl⟩, rfl, by decide⟩

/-- C1 (amended): when the agent reply contains no `\x7b`-`\x7d` span at all,
the handler returns statusCode 200 with the fixed fallback Recommendation
(general = the two fixed strings, specific = [], priorityLevel "medium",
timeframe "immediate", confidenceScore 0.5, sources = ["System generated
recommendations"]); but when a span exists and it is not parseable JSON,
`json.loads` raises inside the `try` block and the handler returns
statusCode 500. -/
theorem c1_amended (e : Event) (agent : String → String)
    (jsonLoads : String → Except String PyVal)
    (hact : isGenerateRecommendations e.action = true)
    (halert : ((e.context.getD {}).currentAlert.getD []).isEmpty = false) :
    (¬(strFind (agent (handlerPrompt e)) '\x7b' ≥ 0 ∧
        strRFind (agent (handlerPrompt e)) '\x7d' + 1 >
          strFind (agent (handlerPrompt e)) '\x7b') →
      lambda_handler e agent jsonLoads =
        { statusCode := 200, body := fallbackRecommendations }) ∧
    (∀ err,
      (strFind (agent (handlerPrompt e)) '\x7b' ≥ 0 ∧
        strRFind (agent (handlerPrompt e)) '\x7d' + 1 >
          strFind (agent (handlerPrompt e)) '\x7b') →
      jsonLoads (pySlice (agent (handlerPrompt e))
          (strFind (agent (handlerPrompt e)) '\x7b')
          (strRFind (agent (handlerPrompt e)) '\x7d' + 1)) = .error err →
      lambda_handler e agent jsonLoads =
        { statusCode := 500
          body := .dict [("error",
            .str ("Failed to generate recommendations: " ++ err))] }) ∧
    fallbackRecommendations =
      .dict
        [ ("recommendations", .dict
            [ ("general", .list
                [ .str "Stay informed through official channels"
                , .str "Follow instructions from authorities" ])
            , ("specific", .list []) ])
        , ("priorityLevel", .str "medium")
        , ("timeframe", .str "immediate")
        , ("confidenceScore", .num (1/2))
        , ("sources", .list [.str "System generated recommendations"]) ] := by
  obtain ⟨a, c⟩ := e
  cases c with
  | none => simp at halert
  | some c =>
    refine ⟨?_, ?_, rfl⟩
    · intro hno
      simp only [lambda_handler, hact, handlerPrompt] at *
      rw [if_neg hno]
      simp_all
    · intro err hspan herr
      simp only [lambda_handler, hact, handlerPrompt] at *
      rw [if_pos hspan, herr]
      simp_all

set_option maxRecDepth 4000 in
/-- C1 witness: the amended statement instantiated at a concrete event with
the unparseable-span agent (500 branch) and, via the fallback conjunct, at
a braceless reply (200 branch). -/
theorem c1_amended_witness :
    isGenerateRecommendations ev0.action = true ∧
    ((ev0.context.getD {}).currentAlert.getD []).isEmpty = false ∧
    lambda_handler ev0 agent0 jsonLoads0 =
      { statusCode := 500
        body := .dict [("error",
          .str ("Failed to generate recommendations: " ++
            "Expecting value: line 1 column 2 (char 1)"))] } ∧
    lambda_handler ev0 agentNoBraces jsonLoads0 =
      { statusCode := 200, body := fallbackRecommendations } :=
  ⟨rfl, rfl,
   (c1_amended ev0 agent0 jsonLoads0 rfl rfl).2.1
     "Expecting value: line 1 column 2 (char 1)" (by decide) rfl,
   (c1_amended ev0 agentNoBraces jsonLoads0 rfl rfl).1 (by decide)⟩

/-! ### Lemmas about the stable descending sort of the tally list -/

theorem sortedInsert_perm (x : String × Nat) (l : List (String × Nat)) :
    List.Perm (sortedInsert x l) (x :: l) := by
  induction l with
  | nil => exact List.Perm.refl _
  | cons y ys ih =>
    by_cases h : y.2 ≤ x.2
    · simp only [sortedInsert, if_pos h]
      exact List.Perm.refl _
    · simp only [sortedInsert, if_neg h]
      exact (ih.cons y).trans (List.Perm.swap x y ys)

theorem sortByCountDesc_perm (l : List (String × Nat)) :
    List.Perm (sortByCountDesc l) l := by
  induction l with
  | nil => rfl
  | cons x xs ih =>
    exact (sortedInsert_perm x (sortByCountDesc xs)).trans (ih.cons x)

theorem pairwise_sortedInsert (x : String × Nat) (l : List (String × Nat))
    (h : l.Pairwise (fun a b => b.2 ≤ a.2)) :
    (sortedInsert x l).Pairwise (fun a b => b.2 ≤ a.2) := by
  induction l with
  | nil => simp [sortedInsert]
  | cons y ys ih =>
    rcases List.pairwise_cons.1 h with ⟨hy, hys⟩
    by_cases hc : y.2 ≤ x.2
    · simp only [sortedInsert, if_pos hc]
      refine List.pairwise_cons.2 ⟨?_, h⟩
      intro z hz
      rcases List.mem_cons.1 hz with rfl | hz'
      · exact hc
      · exact le_trans (hy z hz') hc
    · simp only [sortedInsert, if_neg hc]
      refine List.pairwise_cons.2 ⟨?_, ih hys⟩
      intro z hz
      rcases List.mem_cons.1 ((sortedInsert_perm x ys).subset hz) with rfl | hz'
      · exact Nat.le_of_lt (Nat.lt_of_not_le hc)
      · exact hy z hz'

theorem pairwise_sortByCountDesc (l : List (String × Nat)) :
    (sortByCountDesc l).Pairwise (fun a b => b.2 ≤ a.2) := by
  induction l with
  | nil => exact List.Pairwise.nil
  | cons x xs ih => exact pairwise_sortedInsert x (sortByCountDesc xs) ih

/-- Stability of the insertion step as filter-preservation: inserting `x`
puts it before every element with an equal count and after every element
with a larger one, so filtering at any fixed count value either prepends
`x` or leaves the filtered list unchanged. -/
theorem filter_sortedInsert (c : Nat) (x : String × Nat) (l : List (String × Nat)) :
    (sortedInsert x l).filter (fun y => y.2 == c) =
      if x.2 = c then x :: l.filter (fun y => y.2 == c)
      else l.filter (fun y => y.2 == c) := by
  induction l with
  | nil => by_cases h : x.2 = c <;> simp [sortedInsert, h]
  | cons y ys ih =>
    by_cases hc : y.2 ≤ x.2
    · simp only [sortedInsert, if_pos hc]
      by_cases hx : x.2 = c <;> simp [List.filter_cons, hx]
    · simp only [sortedInsert, if_neg hc]
      by_cases hx : x.2 = c
      · have hy : ¬ y.2 = c := by omega
        simp [List.filter_cons, ih, hx, hy]
      · simp [List.filter_cons, ih, hx]

/-- The sort is stable: for every count value, the elements carrying that
count appear in the sorted list exactly in their original order.  Together
with sortedness and being a permutation this characterises the output of
Python's stable `sorted`. -/
theorem filter_sortByCountDesc (c : Nat) (l : List (String × Nat)) :
    (sortByCountDesc l).filter (fun y => y.2 == c) = l.filter (fun y => y.2 == c) := by
  induction l with
  | nil => rfl
  | cons x xs ih =>
    show (sortedInsert x (sortByCountDesc xs)).filter _ = _
    rw [filter_sortedInsert]
    by_cases hx : x.2 = c <;> simp [List.filter_cons, hx, ih]

/-! ### Lemmas about the grouping of alerts by event type -/

theorem keys_addToGroup (acc : List (String × List HAlert)) (k : String) (a : HAlert) :
    (addToGroup acc k a).map Prod.fst =
      if k ∈ acc.map Prod.fst then acc.map Prod.fst
      else acc.map Prod.fst ++ [k] := by
  induction acc with
  | nil => simp [addToGroup]
  | cons p rest ih =>
    obtain ⟨k', l⟩ := p
    by_cases h : k' = k
    · subst h; simp [addToGroup]
    · simp only [addToGroup, if_neg h, List.map_cons, ih]
      by_cases hk : k ∈ rest.map Prod.fst
      · simp [hk, List.mem_cons, Ne.symm h]
      · simp [hk, List.mem_cons, Ne.symm h]

theorem nodup_keys_addToGroup (acc : List (String × List HAlert)) (k : String)
    (a : HAlert) (h : (acc.map Prod.fst).Nodup) :
    ((addToGroup acc k a).map Prod.fst).Nodup := by
  rw [keys_addToGroup]
  by_cases hk : k ∈ acc.map Prod.fst
  · simpa [hk] using h
  · simp [hk, List.nodup_append, h]

theorem nodup_keys_groupByEventType (alerts : List HAlert) :
    ((groupByEventType alerts).map Prod.fst).Nodup := by
  suffices h : ∀ acc : List (String × List HAlert), (acc.map Prod.fst).Nodup →
      ((alerts.foldl (fun acc a => addToGroup acc (a.eventType.getD "unknown") a)
        acc).map Prod.fst).Nodup from h [] (by simp)
  induction alerts with
  | nil => intro acc h; simpa using h
  | cons x xs ih =>
    intro acc h
    exact ih _ (nodup_keys_addToGroup acc _ x h)

theorem ne_nil_of_mem_groupBy {alerts : List HAlert} {et : String}
    {l : List HAlert} (h : (et, l) ∈ groupByEventType alerts) : alerts ≠ [] := by
  rintro rfl
  simp [groupByEventType] at h

theorem analyze_some_eq (alerts : List HAlert) (h : alerts ≠ []) :
    analyze_historical_patterns (some alerts) =
      { patterns := (groupByEventType alerts).flatMap fun g => patternsFor g.1 g.2
        effective_actions :=
          (groupByEventType alerts).flatMap fun g => effectiveActionsFor g.1 g.2 } := by
  simp [analyze_historical_patterns, h]

/-- Filtering the concatenated per-group output at one group's key yields
exactly that group's contribution, because the group keys are distinct and
every produced entry carries its group's key. -/
theorem filter_flatMap_group {β : Type} (key : β → String)
    (f : String × List HAlert → List β)
    (hf : ∀ g, ∀ b ∈ f g, key b = g.1)
    (groups : List (String × List HAlert))
    (hnd : (groups.map Prod.fst).Nodup)
    (et : String) (l : List HAlert) (hmem : (et, l) ∈ groups) :
    (groups.flatMap f).filter (fun b => key b == et) = f (et, l) := by
  induction groups with
  | nil => simp at hmem
  | cons g gs ih =>
    rw [List.flatMap_cons, List.filter_append]
    rcases List.mem_cons.1 hmem with heq | hmem'
    · subst heq
      have h1 : (f (et, l)).filter (fun b => key b == et) = f (et, l) :=
        List.filter_eq_self.2 (fun b hb => by simp [hf _ _ hb])
      have hknotin : et ∉ gs.map Prod.fst := by
        rw [List.map_cons] at hnd
        exact (List.nodup_cons.1 hnd).1
      have h2 : (gs.flatMap f).filter (fun b => key b == et) = [] := by
        refine List.filter_eq_nil_iff.2 (fun b hb => ?_)
        rcases List.mem_flatMap.1 hb with ⟨g', hg', hbg'⟩
        have : key b = g'.1 := hf _ _ hbg'
        simp only [this, beq_iff_eq]
        intro hgeq
        exact hknotin (hgeq ▸ List.mem_map_of_mem Prod.fst hg')
      rw [h1, h2, List.append_nil]
    · rw [List.map_cons] at hnd
      have hnd' := List.nodup_cons.1 hnd
      have hget : et ∈ gs.map Prod.fst := by
        simpa using List.mem_map_of_mem Prod.fst hmem'
      have hg1 : g.1 ≠ et := fun h => hnd'.1 (h ▸ hget)
      have h1 : (f g).filter (fun b => key b == et) = [] := by
        refine List.filter_eq_nil_iff.2 (fun b hb => ?_)
        simp [hf _ _ hb, hg1]
      rw [h1, List.nil_append]
      exact ih hnd'.2 hmem'

/-- Entries taken from the first three places of the sorted tally are tally
entries. -/
theorem mem_tally_of_mem_take {t : List (String × Nat)} {p : String × Nat}
    (hp : p ∈ (sortByCountDesc t).take 3) : p ∈ t :=
  (sortByCountDesc_perm t).subset (List.mem_of_mem_take hp)

/-- C3: for every partition of the input by event type, the aggregator
emits at most 3 EffectiveAction entries; they are exactly the first three
places of the stable descending sort of the tally (a permutation of the
tally, sorted by descending count, preserving encounter order among equal
counts); each entry's frequency is its tallied count; the emitted entries
are in descending frequency order; and every non-selected tally entry has
a count no larger than any emitted frequency. -/
theorem c3_top_actions (alerts : List HAlert) (et : String) (l : List HAlert)
    (hmem : (et, l) ∈ groupByEventType alerts) :
    (analyze_historical_patterns (some alerts)).effective_actions.filter
        (fun e => e.eventType == et) = effectiveActionsFor et l ∧
    (effectiveActionsFor et l).length ≤ 3 ∧
    (effectiveActionsFor et l).map (fun e => (e.action, e.frequency)) =
      (sortByCountDesc (actionsCount l)).take 3 ∧
    List.Perm (sortByCountDesc (actionsCount l)) (actionsCount l) ∧
    (sortByCountDesc (actionsCount l)).Pairwise (fun a b => b.2 ≤ a.2) ∧
    (∀ c : Nat, (sortByCountDesc (actionsCount l)).filter (fun y => y.2 == c) =
        (actionsCount l).filter (fun y => y.2 == c)) ∧
    (effectiveActionsFor et l).Pairwise (fun e e' => e'.frequency ≤ e.frequency) ∧
    (∀ e ∈ effectiveActionsFor et l, (e.action, e.frequency) ∈ actionsCount l) ∧
    (∀ x ∈ actionsCount l, x ∉ (sortByCountDesc (actionsCount l)).take 3 →
        ∀ e ∈ effectiveActionsFor et l, x.2 ≤ e.frequency) := by
  refine ⟨?_, ?_, ?_, sortByCountDesc_perm _, pairwise_sortByCountDesc _,
    fun c => filter_sortByCountDesc c _, ?_, ?_, ?_⟩
  · rw [analyze_some_eq alerts (ne_nil_of_mem_groupBy hmem)]
    exact filter_flatMap_group EffectiveAction.eventType
      (fun g => effectiveActionsFor g.1 g.2)
      (by
        rintro g b hb
        simp only [effectiveActionsFor, List.mem_map] at hb
        obtain ⟨p, _, rfl⟩ := hb
        rfl)
      _ (nodup_keys_groupByEventType alerts) et l hmem
  · simp only [effectiveActionsFor, List.length_map, List.length_take]
    omega
  · simp only [effectiveActionsFor, List.map_map]
    have heq : ((fun e : EffectiveAction => (e.action, e.frequency)) ∘
        (fun p : String × Nat =>
          ({ action := p.1, eventType := et, frequency := p.2,
             confidence := min ((p.2 : ℚ) / (l.length : ℚ)) (19/20) } :
            EffectiveAction))) = id := by
      funext p
      rfl
    rw [heq, List.map_id]
  · exact List.pairwise_map.2
      (List.Pairwise.sublist (List.take_sublist 3 _) (pairwise_sortByCountDesc _))
  · rintro e he
    simp only [effectiveActionsFor, List.mem_map] at he
    obtain ⟨p, hp, rfl⟩ := he
    simpa using mem_tally_of_mem_take hp
  · rintro x hx hnotin e he
    simp only [effectiveActionsFor, List.mem_map] at he
    obtain ⟨p, hp, rfl⟩ := he
    have hxs : x ∈ sortByCountDesc (actionsCount l) :=
      ((sortByCountDesc_perm _).mem_iff).2 hx
    have hxs' : x ∈ (sortByCountDesc (actionsCount l)).take 3 ++
        (sortByCountDesc (actionsCount l)).drop 3 := by
      rwa [List.take_append_drop]
    rcases List.mem_append.1 hxs' with h | h
    · exact absurd h hnotin
    · have hpw : ((sortByCountDesc (actionsCount l)).take 3 ++
          (sortByCountDesc (actionsCount l)).drop 3).Pairwise
            (fun a b => b.2 ≤ a.2) := by
        rw [List.take_append_drop]
        exact pairwise_sortByCountDesc _
      exact (List.pairwise_append.1 hpw).2.2 p hp x h

/-- C3 witness: the theorem applied to a concrete three-record partition. -/
theorem c3_top_actions_witness :
    (("weather", halerts3) ∈ groupByEventType halerts3) ∧
    ((analyze_historical_patterns (some halerts3)).effective_actions.filter
        (fun e => e.eventType == "weather") = effectiveActionsFor "weather" halerts3 ∧
    (effectiveActionsFor "weather" halerts3).length ≤ 3 ∧
    (effectiveActionsFor "weather" halerts3).map (fun e => (e.action, e.frequency)) =
      (sortByCountDesc (actionsCount halerts3)).take 3 ∧
    List.Perm (sortByCountDesc (actionsCount halerts3)) (actionsCount halerts3) ∧
    (sortByCountDesc (actionsCount halerts3)).Pairwise (fun a b => b.2 ≤ a.2) ∧
    (∀ c : Nat, (sortByCountDesc (actionsCount halerts3)).filter (fun y => y.2 == c) =
        (actionsCount halerts3).filter (fun y => y.2 == c)) ∧
    (effectiveActionsFor "weather" halerts3).Pairwise
      (fun e e' => e'.frequency ≤ e.frequency) ∧
    (∀ e ∈ effectiveActionsFor "weather" halerts3,
        (e.action, e.frequency) ∈ actionsCount halerts3) ∧
    (∀ x ∈ actionsCount halerts3,
        x ∉ (sortByCountDesc (actionsCount halerts3)).take 3 →
        ∀ e ∈ effectiveActionsFor "weather" halerts3, x.2 ≤ e.frequency)) :=
  ⟨by decide, c3_top_actions halerts3 "weather" halerts3 (by decide)⟩

/-- C4: for every partition of the input by event type, a partition with 3
or more records yields exactly one PatternSummary carrying the partition
size, the arithmetic mean of the severities (0 for absent severities) and
a description naming the event type and the occurrence count; a partition
with fewer than 3 records yields none. -/
theorem c4_pattern_summary (alerts : List HAlert) (et : String) (l : List HAlert)
    (hmem : (et, l) ∈ groupByEventType alerts) :
    (analyze_historical_patterns (some alerts)).patterns.filter
        (fun p => p.eventType == et) = patternsFor et l ∧
    (3 ≤ l.length → patternsFor et l =
      [{ eventType := et
         count := l.length
         averageSeverity := ((l.map fun a => a.severity.getD 0).sum) / (l.length : ℚ)
         description := "Pattern of " ++ et ++ " alerts identified with " ++
           toString l.length ++ " occurrences" }]) ∧
    (l.length < 3 → patternsFor et l = []) := by
  refine ⟨?_, ?_, ?_⟩
  · rw [analyze_some_eq alerts (ne_nil_of_mem_groupBy hmem)]
    exact filter_flatMap_group PatternSummary.eventType
      (fun g => patternsFor g.1 g.2)
      (by
        rintro g b hb
        simp only [patternsFor] at hb
        split at hb
        · rcases List.mem_singleton.1 hb with rfl
          rfl
        · simp at hb)
      _ (nodup_keys_groupByEventType alerts) et l hmem
  · intro h
    simp [patternsFor, h]
  · intro h
    rw [patternsFor, if_neg (by omega)]

/-- C4 witness: the theorem applied to a concrete three-record partition
(mean severity (8+6+4)/3 = 6). -/
theorem c4_pattern_summary_witness :
    (("weather", halerts3) ∈ groupByEventType halerts3) ∧
    ((analyze_historical_patterns (some halerts3)).patterns.filter
        (fun p => p.eventType == "weather") = patternsFor "weather" halerts3 ∧
    (3 ≤ halerts3.length → patternsFor "weather" halerts3 =
      [{ eventType := "weather"
         count := halerts3.length
         averageSeverity :=
           ((halerts3.map fun a => a.severity.getD 0).sum) / (halerts3.length : ℚ)
         description := "Pattern of " ++ "weather" ++ " alerts identified with " ++
           toString halerts3.length ++ " occurrences" }]) ∧
    (halerts3.length < 3 → patternsFor "weather" halerts3 = [])) :=
  ⟨by decide, c4_pattern_summary halerts3 "weather" halerts3 (by decide)⟩

/-- C5: every emitted EffectiveAction has confidence exactly
`min(count / partition_size, 0.95)` where `count` is its tallied count and
`partition_size` the size of its event-type partition; in particular no
confidence exceeds 0.95. -/
theorem c5_confidence (alerts : Option (List HAlert)) (e : EffectiveAction)
    (he : e ∈ (analyze_historical_patterns alerts).effective_actions) :
    e.confidence ≤ 19/20 ∧
    ∃ et partition, (et, partition) ∈ groupByEventType (alerts.getD []) ∧
      e.eventType = et ∧
      (e.action, e.frequency) ∈ actionsCount partition ∧
      e.confidence = min ((e.frequency : ℚ) / (partition.length : ℚ)) (19/20) := by
  match alerts with
  | Option.none => simp [analyze_historical_patterns] at he
  | some al =>
    match hal : al with
    | [] => simp [analyze_historical_patterns] at he
    | a :: rest =>
      rw [analyze_some_eq (a :: rest) (by simp)] at he
      rcases List.mem_flatMap.1 he with ⟨g, hg, hb⟩
      simp only [effectiveActionsFor, List.mem_map] at hb
      obtain ⟨p, hp, rfl⟩ := hb
      refine ⟨min_le_right _ _, g.1, g.2, ?_, rfl, ?_, rfl⟩
      · simpa using hg
      · simpa using mem_tally_of_mem_take hp

/-- C5 witness: the theorem applied to the concrete entry for "evacuate"
(tallied twice over a partition of three records, confidence 2/3). -/
theorem c5_confidence_witness :
    effEvac ∈ (analyze_historical_patterns (some halerts3)).effective_actions ∧
    (effEvac.confidence ≤ 19/20 ∧
    ∃ et partition, (et, partition) ∈ groupByEventType ((some halerts3).getD []) ∧
      effEvac.eventType = et ∧
      (effEvac.action, effEvac.frequency) ∈ actionsCount partition ∧
      effEvac.confidence =
        min ((effEvac.frequency : ℚ) / (partition.length : ℚ)) (19/20)) :=
  have hmem : effEvac ∈
      (analyze_historical_patterns (some halerts3)).effective_actions := by
    norm_num [analyze_historical_patterns, groupByEventType, addToGroup,
      actionsCount, addCount, sortByCountDesc, sortedInsert, effectiveActionsFor,
      halerts3, effEvac, min_def]
  ⟨hmem, c5_confidence (some halerts3) effEvac hmem⟩

/-! ### Lemmas about `str.lower` and the best-practices table -/

theorem char_toNat_ofNat {n : Nat} (h : n.isValidChar) : (Char.ofNat n).toNat = n := by
  simp only [Char.ofNat, dif_pos h]
  rfl

/-- `Char.toLower` never produces a basic-latin upper-case letter. -/
theorem toLower_toNat_not_upper (c : Char) :
    ¬(65 ≤ (Char.toLower c).toNat ∧ (Char.toLower c).toNat ≤ 90) := by
  unfold Char.toLower
  by_cases hc : c.toNat ≥ 65 ∧ c.toNat ≤ 90
  · rw [if_pos hc]
    have hv : (c.toNat + 32).isValidChar := by
      left
      omega
    rw [char_toNat_ofNat hv]
    omega
  · rw [if_neg hc]
    omega

/-- A lowered string never equals a string whose first character is a
basic-latin upper-case letter. -/
theorem pyLower_ne_of_head_upper (s e : String) (c : Char)
    (hhead : e.data.head? = some c) (hc : 65 ≤ c.toNat ∧ c.toNat ≤ 90) :
    pyLower s ≠ e := by
  intro h
  have hd : s.data.map Char.toLower = e.data := congrArg String.data h
  cases hs : s.data with
  | nil =>
    rw [hs] at hd
    rw [← hd] at hhead
    simp at hhead
  | cons a as =>
    rw [hs] at hd
    rw [← hd] at hhead
    simp only [List.map_cons, List.head?_cons, Option.some.injEq] at hhead
    exact toLower_toNat_not_upper a (hhead ▸ hc)

/-- Every entry of the global default list starts with an upper-case
letter, so no lowered sub-type can be a member. -/
theorem pyLower_notin_globalDefault (s : String) : pyLower s ∉ globalDefault := by
  intro hmem
  simp only [globalDefault, List.mem_cons, List.not_mem_nil, or_false] at hmem
  rcases hmem with h | h | h | h | h
  · exact pyLower_ne_of_head_upper s "Stay informed through official channels"
      'S' rfl (by decide) h
  · exact pyLower_ne_of_head_upper s "Follow instructions from authorities"
      'F' rfl (by decide) h
  · exact pyLower_ne_of_head_upper s "Have emergency supplies ready"
      'H' rfl (by decide) h
  · exact pyLower_ne_of_head_upper s "Develop and practice an emergency plan"
      'D' rfl (by decide) h
  · exact pyLower_ne_of_head_upper s "Help neighbors who may need assistance"
      'H' rfl (by decide) h

/-- A successful association-list lookup returns a stored value. -/
theorem alistGet_some_mem {α : Type} {d : List (String × α)} {k : String} {v : α}
    (h : alistGet d k = some v) : v ∈ d.map Prod.snd := by
  unfold alistGet at h
  cases hf : d.find? (fun kv => kv.1 == k) with
  | none => rw [hf] at h; simp at h
  | some kv =>
    rw [hf] at h
    have hv : kv.2 = v := by simpa using h
    subst hv
    exact List.mem_map_of_mem Prod.snd (List.mem_of_find?_eq_some hf)

/-- The leaf branch (top-level `"default"` entry) never raises and always
returns the global default list: the lowered sub-type cannot be a member
of the list, and neither is the string `"default"`. -/
theorem leafBranch_globalDefault (st : Option String) :
    leafBranch globalDefault st = .ok globalDefault := by
  cases st with
  | none =>
    rw [leafBranch, if_neg (by decide)]
  | some s =>
    rw [leafBranch, if_neg (fun hand => pyLower_notin_globalDefault s hand.2),
      if_neg (by decide)]

/-- On a sub-type dict with no empty-string key, the code's table branch
computes exactly the spec's resolution order (the code additionally treats
an empty sub-type string as absent, which the spec's exact-match step also
rejects because `""` is not a key). -/
theorem tableBranch_eq_specResolve (tp : List (String × List String))
    (st : Option String) (hempty : alistGet tp "" = Option.none) :
    tableBranch tp st = .ok (specResolve tp st) := by
  cases st with
  | none =>
    cases hX : alistGet tp "default" with
    | none => simp [tableBranch, defaultOf, specResolve, hX]
    | some l => simp [tableBranch, defaultOf, specResolve, hX]
  | some s =>
    by_cases hs : s = ""
    · subst hs
      have hpy : pyLower "" = "" := rfl
      cases hX : alistGet tp "default" with
      | none => simp [tableBranch, defaultOf, specResolve, hpy, hempty, hX]
      | some l => simp [tableBranch, defaultOf, specResolve, hpy, hempty, hX]
    · cases hY : alistGet tp (pyLower s) with
      | none =>
        cases hX : alistGet tp "default" with
        | none => simp [tableBranch, defaultOf, specResolve, hs, hY, hX]
        | some l => simp [tableBranch, defaultOf, specResolve, hs, hY, hX]
      | some l => simp [tableBranch, defaultOf, specResolve, hs, hY]

/-- Every sub-type dict stored in the table has only non-empty value
lists. -/
theorem bp_table_values_nonempty {tp : List (String × List String)}
    (h : BPEntry.table tp ∈ best_practices.map Prod.snd) :
    ∀ v ∈ tp.map Prod.snd, v ≠ [] := by
  simp only [best_practices, List.map_cons, List.map_nil, List.mem_cons,
    List.not_mem_nil, or_false] at h
  rcases h with h | h | h | h | h
  · injection h with h2; subst h2; decide
  · injection h with h2; subst h2; decide
  · injection h with h2; subst h2; decide
  · injection h with h2; subst h2; decide
  · injection h

/-- No sub-type dict stored in the table has an empty-string key. -/
theorem bp_table_no_empty_key {tp : List (String × List String)}
    (h : BPEntry.table tp ∈ best_practices.map Prod.snd) :
    alistGet tp "" = Option.none := by
  simp only [best_practices, List.map_cons, List.map_nil, List.mem_cons,
    List.not_mem_nil, or_false] at h
  rcases h with h | h | h | h | h
  · injection h with h2; subst h2; rfl
  · injection h with h2; subst h2; rfl
  · injection h with h2; subst h2; rfl
  · injection h with h2; subst h2; rfl
  · injection h

/-- The spec-side resolution never returns an empty list when the table's
stored values are non-empty. -/
theorem specResolve_ne_nil (tp : List (String × List String)) (st : Option String)
    (hvals : ∀ v ∈ tp.map Prod.snd, v ≠ []) :
    specResolve tp st ≠ [] := by
  unfold specResolve
  cases st with
  | none =>
    cases hX : alistGet tp "default" with
    | some l => exact hvals l (alistGet_some_mem hX)
    | none =>
      show globalDefault ≠ []
      decide
  | some s =>
    show (match alistGet tp (pyLower s) with
      | some l => l
      | Option.none =>
          match alistGet tp "default" with
          | some l => l
          | Option.none => globalDefault) ≠ []
    cases hY : alistGet tp (pyLower s) with
    | some l => exact hvals l (alistGet_some_mem hY)
    | none =>
      cases hX : alistGet tp "default" with
      | some l => exact hvals l (alistGet_some_mem hX)
      | none =>
        show globalDefault ≠ []
        decide

/-- C6: `get_best_practices` never fails and computes exactly the spec's
resolution order — exact case-insensitive `(eventType, subType)` match,
else the `(eventType, "default")` entry, else the global default list —
always returning a non-empty list; concretely, ("weather","hurricane")
yields the 5-item hurricane list, ("weather","blizzard") the weather
default list, ("unknownType", none) the global default list, and
("WEATHER","Hurricane") the same list as ("weather","hurricane"). -/
theorem c6_best_practices :
    (∀ et st, get_best_practices et st = .ok (bp_resolution_spec et st)) ∧
    (∀ et st, bp_resolution_spec et st ≠ []) ∧
    get_best_practices "weather" (some "hurricane") = .ok
      [ "Evacuate if directed by local authorities"
      , "Secure outdoor objects that could become projectiles"
      , "Prepare emergency supplies including food, water, and medications"
      , "Stay away from windows during the storm"
      , "Monitor NOAA Weather Radio for updates" ] ∧
    get_best_practices "weather" (some "blizzard") = .ok
      [ "Stay informed through official weather channels"
      , "Prepare emergency supplies"
      , "Follow evacuation orders if issued"
      , "Secure your property if time allows"
      , "Have a communication plan with family members" ] ∧
    get_best_practices "unknownType" Option.none = .ok globalDefault ∧
    get_best_practices "WEATHER" (some "Hurricane") =
      get_best_practices "weather" (some "hurricane") := by
  refine ⟨?_, ?_, by rfl, by rfl, by rfl, by rfl⟩
  · intro et st
    unfold get_best_practices bp_resolution_spec
    cases hK : alistGet best_practices (pyLower et) with
    | none => rfl
    | some entry =>
      cases entry with
      | table tp =>
        exact tableBranch_eq_specResolve tp st
          (bp_table_no_empty_key (alistGet_some_mem hK))
      | leaf tp =>
        have hmem := alistGet_some_mem hK
        simp only [best_practices, List.map_cons, List.map_nil, List.mem_cons,
          List.not_mem_nil, or_false] at hmem
        rcases hmem with h | h | h | h | h
        · injection h
        · injection h
        · injection h
        · injection h
        · injection h with h2
          subst h2
          exact leafBranch_globalDefault st
  · intro et st
    unfold bp_resolution_spec
    cases hK : alistGet best_practices (pyLower et) with
    | none =>
      show globalDefault ≠ []
      decide
    | some entry =>
      cases entry with
      | leaf tp =>
        show globalDefault ≠ []
        decide
      | table tp =>
        show specResolve tp st ≠ []
        exact specResolve_ne_nil tp st
          (bp_table_values_nonempty (alistGet_some_mem hK))

/-- C10: for any event type whose lowering is the literal string
`"default"`, `get_best_practices` still terminates normally (no
`TypeError`) and returns the global default list, whatever the sub-type:
the table entry for that key is a plain list, the lowered sub-type is
never a member of it, and neither is the string `"default"`. -/
theorem c10_default_event_leaf (et : String) (st : Option String)
    (h : pyLower et = "default") :
    get_best_practices et st = .ok globalDefault ∧
    alistGet best_practices "default" = some (.leaf globalDefault) ∧
    "default" ∉ globalDefault ∧
    (∀ s', pyLower s' ∉ globalDefault) := by
  refine ⟨?_, rfl, by decide, pyLower_notin_globalDefault⟩
  unfold get_best_practices
  rw [h]
  show leafBranch globalDefault st = .ok globalDefault
  exact leafBranch_globalDefault st

/-- C10 witness: the theorem applied at `("DEFAULT", some "Hurricane")`. -/
theorem c10_default_event_leaf_witness :
    pyLower "DEFAULT" = "default" ∧
    (get_best_practices "DEFAULT" (some "Hurricane") = .ok globalDefault ∧
     alistGet best_practices "default" = some (.leaf globalDefault) ∧
     "default" ∉ globalDefault ∧
     (∀ s', pyLower s' ∉ globalDefault)) :=
  ⟨rfl, c10_default_event_leaf "DEFAULT" (some "Hurricane") rfl⟩

end RecommendationAgent
